import Mathlib

/-!
Verification of the KAM data pipeline (`base_kam_model.py`,
`generate_combined_data.py`) against its natural-language specification.

Numeric values are modelled as rationals; an IEEE NaN is modelled as
`none` in `Val := Option ℚ`.  The floating-point square root has no
rational counterpart, so the scorer is parametrised by an abstract
function `sq : ℚ → ℚ` standing for `np.sqrt`; no theorem below depends
on its values beyond congruence.
-/

/-- Decidable equality of `Except` results, used to evaluate the
embedding on concrete inputs. -/
instance {ε α : Type} [DecidableEq ε] [DecidableEq α] : DecidableEq (Except ε α) := fun x y =>
  match x, y with
  | Except.ok a, Except.ok b =>
    if h : a = b then Decidable.isTrue (by rw [h])
    else Decidable.isFalse (by intro hc; injection hc; exact h (by assumption))
  | Except.error a, Except.error b =>
    if h : a = b then Decidable.isTrue (by rw [h])
    else Decidable.isFalse (by intro hc; injection hc; exact h (by assumption))
  | Except.ok _, Except.error _ => Decidable.isFalse (by intro hc; exact Except.noConfusion hc)
  | Except.error _, Except.ok _ => Decidable.isFalse (by intro hc; exact Except.noConfusion hc)

namespace KAM

/-- A numeric cell: `none` models IEEE NaN. -/
abbrev Val := Option ℚ

/-- One sample across a field group's channels (innermost axis). -/
abbrev Row := List Val

/-- A 2-D array `[sample, channel]`. -/
abbrev Mat := List Row

/-- A 3-D array `[step, sample, channel]`, the shape of subject data. -/
abbrev Arr3 := List Mat

/-- Helper instance: equality of named-tensor dictionaries is decidable
(stated in applied form to guide instance search through the nested
list types). -/
instance : DecidableEq (List (String × Arr3)) := fun _ _ => inferInstance

/-! ## MinMaxScaler (sklearn.preprocessing), NaN-aware -/

/-- Per-column fitted state of `sklearn.preprocessing.MinMaxScaler`:
`data_min_` and `data_max_` for each column. -/
structure MinMaxScaler where
  dataMin : List Val
  dataMax : List Val
deriving DecidableEq, Repr

/-- Minimum of two rationals (kept as an explicit conditional so that
concrete instances evaluate by `decide`). -/
def qmin (a b : ℚ) : ℚ := if a ≤ b then a else b

/-- Maximum of two rationals. -/
def qmax (a b : ℚ) : ℚ := if b ≤ a then a else b

/-- `np.nanmin` over a column: minimum of the finite entries, NaN when
there is none. -/
def nanMin (l : List Val) : Val :=
  match l.filterMap id with
  | [] => none
  | x :: xs => some (xs.foldl qmin x)

/-- `np.nanmax` over a column. -/
def nanMax (l : List Val) : Val :=
  match l.filterMap id with
  | [] => none
  | x :: xs => some (xs.foldl qmax x)

/-- Column `j` of a 2-D array (out-of-range entries read as NaN,
which never happens on the rectangular arrays the pipeline builds). -/
def colOf (m : Mat) (j : ℕ) : List Val := m.map (fun r => r.getD j none)

/-- Number of columns of a rectangular 2-D array. -/
def nCols (m : Mat) : ℕ := (m.headD []).length

/-- `MinMaxScaler.fit`: record per-column `nanmin`/`nanmax` (sklearn
ignores NaNs when fitting). -/
def mmFit (m : Mat) : MinMaxScaler :=
  ⟨(List.range (nCols m)).map (fun j => nanMin (colOf m j)),
   (List.range (nCols m)).map (fun j => nanMax (colOf m j))⟩

/-- Transform one entry given the column's fitted `data_min`/`data_max`:
`(x - min) * scale` with `scale = 1/(max-min)` and sklearn's
`_handle_zeros_in_scale` turning a zero range into scale 1.  NaN in
either the entry or the fitted parameters propagates. -/
def mmEntry (lo hi x : Val) : Val :=
  match lo, hi, x with
  | some a, some b, some v => some ((v - a) * (if b - a = 0 then 1 else 1 / (b - a)))
  | _, _, _ => none

/-- `MinMaxScaler.transform` applied to one row. -/
def mmTransformRow (sc : MinMaxScaler) (r : Row) : Row :=
  r.mapIdx (fun j x => mmEntry (sc.dataMin.getD j none) (sc.dataMax.getD j none) x)

/-! ## BaseModel.normalize_data (base_kam_model.py lines 130-144) -/

/-- True when a sample's full channel vector is exactly zero, the
padding-sentinel test `(input_data == 0.).all(axis=2)` (NaN compares
unequal to 0, as in numpy). -/
def sentinelRow (r : Row) : Bool := r.all (fun v => decide (v = some 0))

/-- Line 138: replace each all-zero sample with NaN across its channels. -/
def maskRowZeros (r : Row) : Row :=
  if sentinelRow r then r.map (fun _ => (none : Val)) else r

/-- Sentinel masking over a step's 2-D slice. -/
def maskZeroRows (m : Mat) : Mat := m.map maskRowZeros

/-- Scaler transform over a 3-D array (the reshape to 2-D and back on
lines 139/141 is a no-op for the entrywise transform). -/
def transformArr (sc : MinMaxScaler) (a : Arr3) : Arr3 :=
  a.map (fun m => m.map (mmTransformRow sc))

/-- Line 142 `input_data[np.isnan(input_data)] = 0.`: every NaN becomes
exactly 0, finite entries are unchanged. -/
def nanToZero (v : Val) : Val := some (v.getD 0)

/-- NaN replacement over a 3-D array. -/
def nanToZeroArr (a : Arr3) : Arr3 :=
  a.map (fun m => m.map (fun r => r.map nanToZero))

/-- The scaler-method string dispatched by
`getattr(scalars[input_name], method)`. -/
inductive ScaleMethod where
  | fit
  | transform
  | fit_transform
deriving DecidableEq, Repr

/-- One group's pass through `normalize_data` (lines 134-143).  The
group's tensor is copied (line 135), its all-zero samples become NaN
(line 138), the scaler method runs on the 2-D reshape (lines 139-140),
and NaNs of the result become 0 (line 142).  `method = fit` fails:
`MinMaxScaler.fit` returns the scaler object itself, on which the
`reshape` of line 141 raises `AttributeError`.  `transform` on a
never-fitted scaler raises sklearn's `NotFittedError`. -/
def normalize_group (sc : Option MinMaxScaler) (method : ScaleMethod) (a : Arr3) :
    Except String (Option MinMaxScaler × Arr3) :=
  let masked := a.map maskZeroRows
  match method with
  | ScaleMethod.fit =>
      Except.error "AttributeError: MinMaxScaler object has no attribute reshape"
  | ScaleMethod.transform =>
      match sc with
      | none => Except.error "NotFittedError: This MinMaxScaler instance is not fitted yet"
      | some s => Except.ok (some s, nanToZeroArr (transformArr s masked))
  | ScaleMethod.fit_transform =>
      let s := mmFit masked.flatten
      Except.ok (some s, nanToZeroArr (transformArr s masked))

/-- Functional update of the `self._data_scalar` dictionary. -/
def updScalars (f : String → Option MinMaxScaler) (n : String) (sc : Option MinMaxScaler) :
    String → Option MinMaxScaler :=
  fun m => if m = n then sc else f m

/-- `BaseModel.normalize_data`: iterate the groups of `data`, running the
scaler method per group, threading the scaler dictionary.  A Python
exception in any group aborts the whole call. -/
def normalize_data (data : List (String × Arr3)) (scalars : String → Option MinMaxScaler)
    (method : ScaleMethod) :
    Except String ((String → Option MinMaxScaler) × List (String × Arr3)) :=
  match data with
  | [] => Except.ok (scalars, [])
  | (n, a) :: rest =>
    match normalize_group (scalars n) method a with
    | Except.error e => Except.error e
    | Except.ok (sc, a2) =>
      match normalize_data rest (updScalars scalars n sc) method with
      | Except.error e => Except.error e
      | Except.ok (sc2, rest2) => Except.ok (sc2, (n, a2) :: rest2)

/-! ## Field extraction and preprocessing (lines 38-43, 146-152) -/

/-- `BaseModel._get_raw_data_dict`: for each named group, pick the
requested columns (located by `self._data_fields.index`) out of the
3-D array; `.copy()` on line 42 makes the result independent of the
store. -/
def get_raw_data_dict (dataFields : List String) (data : Arr3)
    (fieldsDict : List (String × List String)) : List (String × Arr3) :=
  fieldsDict.map (fun g =>
    (g.1, data.map (fun m => m.map (fun r =>
      g.2.map (fun f => r.getD (dataFields.indexOf f) none)))))

/-- `BaseModel.preprocess_train_data` (lines 146-148): the call
`self.normalize_data(x, self._data_scalar, 'fit_transform')` fits the
scalers (the dictionary mutation persists), but its return value is
discarded and `normalize_data` copies before transforming, so the
function returns `x` and `y` unchanged. -/
def preprocess_train_data (scalars : String → Option MinMaxScaler)
    (x y : List (String × Arr3)) :
    Except String ((String → Option MinMaxScaler) × List (String × Arr3) × List (String × Arr3)) :=
  match normalize_data x scalars ScaleMethod.fit_transform with
  | Except.error e => Except.error e
  | Except.ok (sc2, _scaled) => Except.ok (sc2, x, y)

/-- `BaseModel.preprocess_validation_test_data` (lines 150-152): same
shape — the transformed data is computed and dropped, `x`, `y` are
returned raw. -/
def preprocess_validation_test_data (scalars : String → Option MinMaxScaler)
    (x y : List (String × Arr3)) :
    Except String (List (String × Arr3) × List (String × Arr3)) :=
  match normalize_data x scalars ScaleMethod.transform with
  | Except.error e => Except.error e
  | Except.ok _ => Except.ok (x, y)

/-- Projection: the `x` a successful `preprocess_train_data` hands on to
`train_model`. -/
def trainX (e : Except String ((String → Option MinMaxScaler) × List (String × Arr3) × List (String × Arr3))) :
    Option (List (String × Arr3)) :=
  match e with
  | Except.ok (_, x, _) => some x
  | Except.error _ => none

/-- Projection: the scaled dictionary a `normalize_data` call returns. -/
def ndScaled (e : Except String ((String → Option MinMaxScaler) × List (String × Arr3))) :
    Option (List (String × Arr3)) :=
  match e with
  | Except.ok (_, d) => some d
  | Except.error _ => none

/-! ## Scorer: `BaseModel.get_all_scores.get_column_score` (lines 162-179)

The scorer works on real-valued arrays (no NaN in its inputs), so its
arguments are plain rational lists.  The abstract `sq` stands for the
floating-point square root used by `np.sqrt` and inside
`scipy.stats.pearsonr`. -/

/-- `arr[i, w[i, :]]`: keep the entries selected by the boolean mask,
in order. -/
def maskSel (xs : List ℚ) (w : List Bool) : List ℚ :=
  ((xs.zip w).filter (fun p => p.2)).map Prod.fst

/-- `arr.max()` of a nonempty masked slice (0 on the empty list, which
the scorer never reaches because the metrics raise first). -/
def listMax : List ℚ → ℚ
  | [] => 0
  | x :: xs => xs.foldl qmax x

/-- `arr.min()` of a nonempty masked slice. -/
def listMin : List ℚ → ℚ
  | [] => 0
  | x :: xs => xs.foldl qmin x

/-- `np.mean` of a rational list. -/
def meanQ (l : List ℚ) : ℚ := l.sum / l.length

/-- `sklearn.metrics.mean_squared_error`: raises `ValueError` on an
empty array (`check_array` demands at least one sample). -/
def sklearn_mse (t p : List ℚ) : Except String ℚ :=
  if t.length = 0 then Except.error "ValueError: found array with 0 samples"
  else Except.ok (meanQ ((t.zip p).map (fun q => (q.1 - q.2) ^ 2)))

/-- `sklearn.metrics.r2_score`: raises on an empty array; returns NaN
(with `UndefinedMetricWarning`) on fewer than two samples; on a
constant truth returns 1 for a perfect fit and 0 otherwise. -/
def sklearn_r2_score (t p : List ℚ) : Except String Val :=
  if t.length = 0 then Except.error "ValueError: found array with 0 samples"
  else if t.length < 2 then Except.ok none
  else
    let ssRes := ((t.zip p).map (fun q => (q.1 - q.2) ^ 2)).sum
    let ssTot := (t.map (fun v => (v - meanQ t) ^ 2)).sum
    if ssTot = 0 then (if ssRes = 0 then Except.ok (some 1) else Except.ok (some 0))
    else Except.ok (some (1 - ssRes / ssTot))

/-- `scipy.stats.pearsonr` (first component): `r = cov / sqrt(ssx*ssy)`;
the value is NaN exactly when the denominator vanishes (a degenerate,
constant input), which is the zero set of the true square root. -/
def scipy_pearsonr (sq : ℚ → ℚ) (t p : List ℚ) : Val :=
  let xm := t.map (fun v => v - meanQ t)
  let ym := p.map (fun v => v - meanQ p)
  let num := ((xm.zip ym).map (fun q => q.1 * q.2)).sum
  let den2 := (xm.map (fun v => v ^ 2)).sum * (ym.map (fun v => v ^ 2)).sum
  if den2 = 0 then none else some (num / sq den2)

/-- The five per-step metrics of the loop body (lines 166-173). -/
structure StepScore where
  r2 : Val
  rmse : Val
  mae : Val
  r_rmse : Val
  cor_value : Val
deriving DecidableEq, Repr

/-- One iteration of the scoring loop: mask step `i`, then R2, RMSE,
MAE, relative RMSE `rmse[i] / (max+max-min-min) / 2` (NaN/inf when the
combined range is zero) and Pearson correlation.  Exceptions abort in
source order: `r2_score` is evaluated first. -/
def stepMetrics (sq : ℚ → ℚ) (tRow pRow : List ℚ) (wRow : List Bool) :
    Except String StepScore :=
  let t := maskSel tRow wRow
  let p := maskSel pRow wRow
  match sklearn_r2_score t p with
  | Except.error e => Except.error e
  | Except.ok r2v =>
    match sklearn_mse t p with
    | Except.error e => Except.error e
    | Except.ok msev =>
      let rmsev := sq msev
      let maev := meanQ ((t.zip p).map (fun q => |q.1 - q.2|))
      let rangev := listMax t + listMax p - listMin t - listMin p
      let rrmsev : Val := if rangev = 0 then none else some (rmsev / rangev / 2)
      Except.ok ⟨r2v, some rmsev, some maev, rrmsev, scipy_pearsonr sq t p⟩

/-- The per-step loop over `range(arr_true.shape[0])`. -/
def stepsMetrics (sq : ℚ → ℚ) : List (List ℚ × List ℚ × List Bool) → Except String (List StepScore)
  | [] => Except.ok []
  | x :: rest =>
    match stepMetrics sq x.1 x.2.1 x.2.2 with
    | Except.error e => Except.error e
    | Except.ok s =>
      match stepsMetrics sq rest with
      | Except.error e => Except.error e
      | Except.ok ss => Except.ok (s :: ss)

/-- The record `get_column_score` returns for one (output, field). -/
structure ColumnScore where
  r2 : List Val
  r2_all : List Val
  rmse : List Val
  mae : List Val
  r_rmse : List Val
  cor_value : List Val
deriving DecidableEq, Repr

/-- `get_column_score` (lines 163-179): the per-step loop, then one
pooled R2 over the union of all unmasked samples
(`np.where(w.ravel())`), broadcast with `np.full` to the step count. -/
def get_column_score (sq : ℚ → ℚ) (arr_true arr_pred : List (List ℚ)) (w : List (List Bool)) :
    Except String ColumnScore :=
  match stepsMetrics sq (arr_true.zip (arr_pred.zip w)) with
  | Except.error e => Except.error e
  | Except.ok steps =>
    let tAll := ((arr_true.zip w).map (fun q => maskSel q.1 q.2)).flatten
    let pAll := ((arr_pred.zip w).map (fun q => maskSel q.1 q.2)).flatten
    match sklearn_r2_score tAll pAll with
    | Except.error e => Except.error e
    | Except.ok r2allv =>
      Except.ok ⟨steps.map (fun s => s.r2), List.replicate steps.length r2allv,
        steps.map (fun s => s.rmse), steps.map (fun s => s.mae),
        steps.map (fun s => s.r_rmse), steps.map (fun s => s.cor_value)⟩

/-- The combined true-and-predicted range
`max(true) + max(pred) - min(true) - min(pred)` of a step's masked
samples, as the spec writes it. -/
def combinedRange (t p : List ℚ) : ℚ := listMax t + listMax p - listMin t - listMin p

/-- `np.sqrt(mse(...))`, the step's RMSE, as the spec writes it. -/
def rmseOf (sq : ℚ → ℚ) (t p : List ℚ) : ℚ :=
  sq (meanQ ((t.zip p).map (fun q => (q.1 - q.2) ^ 2)))

/-! ## Cross-validation folds (lines 54-62) -/

/-- Fold `i`: the slice `sub_ids[k*i : k*(i+1)]` of held-out subjects. -/
def testFold (subs : List String) (k i : ℕ) : List String := (subs.drop (k * i)).take k

/-- `int(np.ceil(len(sub_ids) / test_set_sub_num))`, the number of
cross-validation folds. -/
def folderNum (n k : ℕ) : ℕ := (n + k - 1) / k

/-- `np.setdiff1d(sub_ids, test_sub_ids)`: the sorted list of unique
elements of the first argument that are not in the second. -/
def np_setdiff1d (a b : List String) : List String :=
  ((a.filter (fun x => decide (x ∉ b))).dedup).insertionSort (fun x y => x ≤ y)

/-- The per-subject data store `self._data_all_sub` (h5 keys are unique). -/
abbrev Store := List (String × Arr3)

/-- `self._data_all_sub[sub_name]`. -/
def storeGet (s : Store) (id : String) : Arr3 :=
  (((s.find? (fun p => decide (p.1 = id))).map Prod.snd).getD [])

/-- The five arguments `preprocess_and_train` hands to `train_model`
(line 100). -/
structure TrainArgs where
  x_train : List (String × Arr3)
  y_train : List (String × Arr3)
  x_validation : Option (List (String × Arr3))
  y_validation : Option (List (String × Arr3))
  validation_weight : Option (List (String × Arr3))
deriving DecidableEq, Repr

/-- `BaseModel.preprocess_and_train` (lines 78-100) up to the
`train_model` call: concatenate the training subjects' arrays,
shuffle with the fixed seed (abstracted as `shuf`, a function of the
data only), extract the x/y groups, run `preprocess_train_data`
(which returns them raw, see above), then — when the validation id
list is nonempty — extract and transform the validation subjects'
groups with the just-fitted scalers. -/
def preprocess_and_train_args (shuf : Arr3 → Arr3) (dataFields : List String)
    (xfields yfields wfields : List (String × List String))
    (store : Store) (scalars : String → Option MinMaxScaler)
    (train_sub_ids validate_sub_ids : List String) :
    Except String ((String → Option MinMaxScaler) × TrainArgs) :=
  let train_data := shuf ((train_sub_ids.map (storeGet store)).flatten)
  let x_tr := get_raw_data_dict dataFields train_data xfields
  let y_tr := get_raw_data_dict dataFields train_data yfields
  match preprocess_train_data scalars x_tr y_tr with
  | Except.error e => Except.error e
  | Except.ok (sc2, x_tr2, y_tr2) =>
    if validate_sub_ids.isEmpty then
      Except.ok (sc2, ⟨x_tr2, y_tr2, none, none, none⟩)
    else
      let vdata := (validate_sub_ids.map (storeGet store)).flatten
      let x_v := get_raw_data_dict dataFields vdata xfields
      let y_v := get_raw_data_dict dataFields vdata yfields
      let w_v := get_raw_data_dict dataFields vdata wfields
      match preprocess_validation_test_data sc2 x_v y_v with
      | Except.error e => Except.error e
      | Except.ok (x_v2, y_v2) =>
        Except.ok (sc2, ⟨x_tr2, y_tr2, some x_v2, some y_v2, some w_v⟩)

/-- One fold of `cross_validation` (lines 58-62): the held-out slice is
the test set, the sorted complement is the train set, and — decisive
for claim C3 — the held-out `test_sub_ids` are also passed as
`validate_sub_ids` to `preprocess_train_evaluation`. -/
def cross_validation_fold_args (shuf : Arr3 → Arr3) (dataFields : List String)
    (xfields yfields wfields : List (String × List String))
    (store : Store) (scalars : String → Option MinMaxScaler)
    (sub_ids : List String) (test_set_sub_num i_folder : ℕ) :
    Except String ((String → Option MinMaxScaler) × TrainArgs) :=
  let test_sub_ids := testFold sub_ids test_set_sub_num i_folder
  let train_sub_ids := np_setdiff1d sub_ids test_sub_ids
  preprocess_and_train_args shuf dataFields xfields yfields wfields store scalars
    train_sub_ids test_sub_ids

/-! ## Aggregation of fold results (lines 64-76) -/

/-- One scorer record of `results`: per (subject, output, field), the
five per-step metric arrays (the pooled `r2_all` is not aggregated). -/
structure FoldResult where
  output : String
  field : String
  r2 : List Val
  rmse : List Val
  mae : List Val
  r_rmse : List Val
  cor_value : List Val
deriving DecidableEq, Repr

/-- `np.round(q, 3)`.  Both sides of the aggregation theorem use this
same function, so the difference between numpy's half-to-even tie rule
and `round`'s half-up rule cannot affect any statement below. -/
def npRound3 (q : ℚ) : ℚ := ((round (q * 1000) : ℤ) : ℚ) / 1000

/-- `np.round` maps NaN to NaN. -/
def round3V : Val → Val
  | none => none
  | some q => some (npRound3 q)

/-- `np.mean` over a 1-D array that may hold NaNs: NaN if empty or if
any entry is NaN. -/
def npMeanV (l : List Val) : Val :=
  if l.isEmpty then none
  else if none ∈ l then none
  else some ((l.filterMap id).sum / l.length)

/-- `np.concatenate`: raises when handed an empty list of arrays. -/
def npConcatV (ls : List (List Val)) : Except String (List Val) :=
  if ls.isEmpty then Except.error "ValueError: need at least one array to concatenate"
  else Except.ok ls.flatten

/-- The filter `x['output'] == output_name and x['field'] == field`. -/
def matchesOF (o f : String) (r : FoldResult) : Bool :=
  decide (r.output = o) && decide (r.field = f)

/-- One row of `mean_results`. -/
structure MeanResult where
  output : String
  field : String
  r2 : Val
  rmse : Val
  mae : Val
  r_rmse : Val
  cor_value : Val
deriving DecidableEq, Repr

/-- Lines 68-75: filter the accumulated records by (output, field) and
take `np.round(np.mean(np.concatenate(...)), 3)` of each metric. -/
def mean_results_entry (results : List FoldResult) (o f : String) :
    Except String MeanResult := do
  let fr := results.filter (matchesOF o f)
  let c1 ← npConcatV (fr.map (fun r => r.r2))
  let c2 ← npConcatV (fr.map (fun r => r.rmse))
  let c3 ← npConcatV (fr.map (fun r => r.mae))
  let c4 ← npConcatV (fr.map (fun r => r.r_rmse))
  let c5 ← npConcatV (fr.map (fun r => r.cor_value))
  return ⟨o, f, round3V (npMeanV c1), round3V (npMeanV c2), round3V (npMeanV c3),
    round3V (npMeanV c4), round3V (npMeanV c5)⟩

/-- The spec's reading: concatenate all per-step values of the matching
records first, then take one arithmetic mean. -/
def concatThenMean (ls : List (List Val)) : ℚ :=
  (ls.flatten.filterMap id).sum / ls.flatten.length

/-- The rejected reading: mean of the per-record means. -/
def meanOfMeans (ls : List (List Val)) : Val := npMeanV (ls.map npMeanV)

/-- A metric array with no NaN entry. -/
abbrev allFinite (l : List Val) : Prop := none ∉ l

/-! ## Heap model for the mutation-freedom claim (C9)

References are indices into a heap of 3-D arrays; the store's subject
arrays live at the initial references.  Each pipeline operation is
written with exactly the allocations (`.copy()`, scaler output) and
in-place writes of the source, so the theorem that old cells survive
is a statement about the source's copy discipline, not by fiat. -/

/-- A heap of arrays; a reference is an index. -/
abbrev Heap := List Arr3

/-- Dereference. -/
def hget (h : Heap) (r : ℕ) : Arr3 := h.getD r []

/-- Allocate a fresh array, returning its reference. -/
def halloc (h : Heap) (a : Arr3) : Heap × ℕ := (h ++ [a], h.length)

/-- In-place write. -/
def hset (h : Heap) (r : ℕ) (a : Arr3) : Heap := h.set r a

/-- The column slice `data[:, :, locs]` of `_get_raw_data_dict`. -/
def sliceCols (dataFields : List String) (fs : List String) (a : Arr3) : Arr3 :=
  a.map (fun m => m.map (fun r => fs.map (fun f => r.getD (dataFields.indexOf f) none)))

/-- `_get_raw_data_dict` on the heap: per group, slice the requested
columns of the subject array at `r` and `.copy()` the slice into a
fresh cell (line 42). -/
def extract_heap (dataFields : List String) (fieldsDict : List (String × List String))
    (r : ℕ) (h : Heap) : Heap × List (String × ℕ) :=
  match fieldsDict with
  | [] => (h, [])
  | (n, fs) :: rest =>
    let (h1, r1) := halloc h (sliceCols dataFields fs (hget h r))
    let (h2, rs) := extract_heap dataFields rest r h1
    (h2, (n, r1) :: rs)

/-- One group of `normalize_data` on the heap.  Line 135 copies the
input into a fresh cell; the masked assignment of line 138 and the NaN
replacement of line 142 are in-place writes, but only ever to cells
this call allocated; the scaler output of line 140 is a fresh array. -/
def normalize_group_heap (sc : Option MinMaxScaler) (method : ScaleMethod)
    (r : ℕ) (h : Heap) : Heap × Except String (Option MinMaxScaler × ℕ) :=
  let (h1, r1) := halloc h (hget h r)
  let h2 := hset h1 r1 ((hget h1 r1).map maskZeroRows)
  match method with
  | ScaleMethod.fit =>
      (h2, Except.error "AttributeError: MinMaxScaler object has no attribute reshape")
  | ScaleMethod.transform =>
      match sc with
      | none => (h2, Except.error "NotFittedError: This MinMaxScaler instance is not fitted yet")
      | some s =>
        let (h3, r2) := halloc h2 (transformArr s (hget h2 r1))
        let h4 := hset h3 r2 (nanToZeroArr (hget h3 r2))
        (h4, Except.ok (some s, r2))
  | ScaleMethod.fit_transform =>
      let s := mmFit ((hget h2 r1).flatten)
      let (h3, r2) := halloc h2 (transformArr s (hget h2 r1))
      let h4 := hset h3 r2 (nanToZeroArr (hget h3 r2))
      (h4, Except.ok (some s, r2))

/-- The pipeline operations that touch subject data outside
calibration: field extraction (used by preprocess, evaluate and score
paths) and per-group normalization. -/
inductive PipeOp where
  | extract (dataFields : List String) (fieldsDict : List (String × List String)) (r : ℕ)
  | normalize (sc : Option MinMaxScaler) (method : ScaleMethod) (r : ℕ)

/-- Heap effect of one pipeline operation. -/
def runOp (h : Heap) : PipeOp → Heap
  | PipeOp.extract df fd r => (extract_heap df fd r h).1
  | PipeOp.normalize sc m r => (normalize_group_heap sc m r h).1

/-- Heap effect of a sequence of pipeline operations. -/
def runOps (h : Heap) : List PipeOp → Heap
  | [] => h
  | op :: ops => runOps (runOp h op) ops

/-! ## Synchronizer tail: `sync_and_crop_data_frame` (generate_combined_data.py
lines 33-40) -/

/-- Modelled from the spec: the `wearable_toolkit` stream readers (not
under `src/`) expose `crop(lag)`, which "removes the leading `lag`
samples" of the stream's data frame; the remaining rows are re-indexed
from 0 so that the two cropped streams align positionally. -/
def stream_crop (lag : ℤ) (df : List α) : List α := df.drop lag.toNat

/-- `pd.concat([a, b], axis=1)` on two freshly indexed frames: an outer
join on the row labels `0, 1, …`; rows past the end of the shorter
frame are padded with NaN (`none`). -/
def pd_concat_cols (a : List α) (b : List β) : List (Option α × Option β) :=
  (List.range (max a.length b.length)).map (fun i => (a[i]?, b[i]?))

/-- `df.loc[:m]` on a `RangeIndex`: pandas label slicing is inclusive
of the end label, so up to `m + 1` rows survive. -/
def pd_loc_upto (m : ℕ) (df : List γ) : List γ := df.take (m + 1)

/-- Lines 33-40 of `generate_combined_data.py`: compute the two crop
offsets from the detected first event and the correlation delay, crop
both streams, and cut the column-concatenated frame at the label
`min_length`. -/
def sync_and_crop_data_frame (imu : List α) (vicon : List β)
    (imu_first_event : ℤ) (vicon_imu_sync_delay : ℤ) : List (Option α × Option β) :=
  let minimum_delay := min (-imu_first_event) vicon_imu_sync_delay
  let vicon_delay := 0 - minimum_delay
  let imu_delay := vicon_imu_sync_delay - minimum_delay
  let imu2 := stream_crop imu_delay imu
  let vicon2 := stream_crop vicon_delay vicon
  let min_length := min imu2.length vicon2.length
  pd_loc_upto min_length (pd_concat_cols imu2 vicon2)

/-- The entry of a 3-D array at step `i`, sample `j`, channel `c`
(`none` when out of range). -/
def entryAt (a : Arr3) (i j c : ℕ) : Option Val :=
  ((a[i]?.bind (fun m => m[j]?)).bind (fun r => r[c]?))

/-- The sample row of a 3-D array at step `i`, sample `j`. -/
def rowAt (a : Arr3) (i j : ℕ) : Option Row := a[i]?.bind (fun m => m[j]?)

/-- Projection: the `TrainArgs` a successful fold hands to
`train_model`, forgetting the scaler dictionary. -/
def cvArgs (e : Except String ((String → Option MinMaxScaler) × TrainArgs)) : Option TrainArgs :=
  match e with
  | Except.ok (_, a) => some a
  | Except.error _ => none

/-! # Theorems -/

/-- Sanity evaluation of the normalizer on a concrete two-sample
group: `fit_transform` fits `min 2, max 4` and scales to `[0, 1]`. -/
theorem normalize_group_fit_transform_example :
    normalize_group none ScaleMethod.fit_transform [[[some 2], [some 4]]]
      = Except.ok (some ⟨[some 2], [some 4]⟩, [[[some 0], [some 1]]]) := by
  simp [normalize_group, mmFit, nanMin, nanMax, colOf, nCols, maskZeroRows, maskRowZeros,
    sentinelRow, transformArr, nanToZeroArr, nanToZero, mmTransformRow, mmEntry, qmin, qmax,
    List.range_succ]
  norm_num

/-- C1 (code bug): on the concrete store group
`x = {"g": [[[2], [4]]]}` with fresh scalers, `preprocess_train_data`
hands `train_model` the raw `x` back, even though the fitted scaler
maps it to `[[[0], [1]]]`; `preprocess_validation_test_data` with the
fitted scaler likewise returns the raw `x` that `predict` then
receives.  The claim — that the model operations receive the
scaler-transformed values — is what the spec's data flow demands, but
both preprocess functions discard `normalize_data`'s return value
(and `normalize_data` copies before transforming, so nothing is
normalized in place). -/
theorem C1_model_receives_raw_data :
    trainX (preprocess_train_data (fun _ => none)
        [("g", [[[some 2], [some 4]]])] [("out", [[[some 5], [some 6]]])])
      = some [("g", [[[some 2], [some 4]]])]
    ∧ ndScaled (normalize_data [("g", [[[some 2], [some 4]]])] (fun _ => none)
        ScaleMethod.fit_transform)
      = some [("g", [[[some 0], [some 1]]])]
    ∧ ([("g", [[[some 0], [some 1]]])] : List (String × Arr3))
        ≠ [("g", [[[some 2], [some 4]]])]
    ∧ preprocess_validation_test_data
        (fun n => if n = "g" then some ⟨[some 2], [some 4]⟩ else none)
        [("g", [[[some 2], [some 4]]])] [("out", [[[some 5], [some 6]]])]
      = Except.ok ([("g", [[[some 2], [some 4]]])], [("out", [[[some 5], [some 6]]])])
    ∧ ndScaled (normalize_data [("g", [[[some 2], [some 4]]])]
        (fun n => if n = "g" then some ⟨[some 2], [some 4]⟩ else none) ScaleMethod.transform)
      = some [("g", [[[some 0], [some 1]]])] := by
  refine ⟨?_, ?_, ?_, ?_, ?_⟩
  · simp [trainX, preprocess_train_data, normalize_data, normalize_group, mmFit, nanMin,
      nanMax, colOf, nCols, maskZeroRows, maskRowZeros, sentinelRow, List.range_succ]
  · simp [ndScaled, normalize_data, normalize_group, mmFit, nanMin, nanMax, colOf, nCols,
      maskZeroRows, maskRowZeros, sentinelRow, transformArr, nanToZeroArr, nanToZero,
      mmTransformRow, mmEntry, qmin, qmax, List.range_succ]
    norm_num
  · intro hc
    injection hc with h1 h2
    injection h1 with h3 h4
    simp at h4
  · simp [preprocess_validation_test_data, normalize_data, normalize_group, maskZeroRows,
      maskRowZeros, sentinelRow]
  · simp [ndScaled, normalize_data, normalize_group, maskZeroRows, maskRowZeros, sentinelRow,
      transformArr, nanToZeroArr, nanToZero, mmTransformRow, mmEntry]
    norm_num

/-- C8 (code bug): with a cropped inertial stream of 3 rows and a
cropped motion-capture stream of 5 rows (first-event index 0, computed
delay 0, so nothing is cropped), the combined record keeps
`min_length + 1 = 4` rows, not `min(3, 5) = 3`: the label slice
`middle_data.loc[:min_length]` is inclusive of the end label, and the
extra row pairs the longer stream's row with NaN for the shorter. -/
theorem C8_truncation_off_by_one :
    (sync_and_crop_data_frame ([10, 11, 12] : List ℕ) ([20, 21, 22, 23, 24] : List ℕ) 0 0).length
      = 4
    ∧ min ([10, 11, 12] : List ℕ).length ([20, 21, 22, 23, 24] : List ℕ).length = 3
    ∧ (sync_and_crop_data_frame ([10, 11, 12] : List ℕ) ([20, 21, 22, 23, 24] : List ℕ) 0 0)[3]?
      = some (none, some 23) := by
  refine ⟨?_, by decide, ?_⟩ <;>
    simp [sync_and_crop_data_frame, stream_crop, pd_concat_cols, pd_loc_upto, List.range_succ]

/-- C7 counterexample: a step whose weight mask selects zero samples
does not score as NaN — `sklearn.metrics.r2_score` (and likewise
`mean_squared_error`) rejects an empty array, so `get_column_score`
raises and the run aborts, contradicting the claim for masks selecting
fewer than two (here: zero) samples. -/
theorem C7_counterexample :
    get_column_score (fun q => q) [[(5 : ℚ)]] [[(4 : ℚ)]] [[false]]
      = Except.error "ValueError: found array with 0 samples" := by
  simp [get_column_score, stepsMetrics, stepMetrics, sklearn_r2_score, maskSel]

/-- C7 (corrected): for a step whose mask selects exactly one sample,
the scorer does not abort: R2 is NaN (sklearn's fewer-than-two-samples
warning path), the Pearson correlation is NaN (zero variance), the
pooled R2 is NaN for the same reason, while RMSE and MAE are computed
from the single selected point; the relative RMSE is not finite (zero
combined range). -/
theorem C7_single_point_scores (sq : ℚ → ℚ) (t p : ℚ) :
    get_column_score sq [[t]] [[p]] [[true]]
      = Except.ok ⟨[none], [none], [some (sq ((t - p) ^ 2))], [some |t - p|], [none], [none]⟩ := by
  have hr : listMax [t] + listMax [p] - listMin [t] - listMin [p] = 0 := by
    simp [listMax, listMin]
  simp [get_column_score, stepsMetrics, stepMetrics, sklearn_r2_score, sklearn_mse, maskSel,
    meanQ, scipy_pearsonr, hr]

/-- C2 counterexample: with the single step `true = [0, 2]`,
`pred = [1, 3]` and an all-true mask (RMSE 1, combined range 4), the
scorer reports `r_rmse = 1/8` — `rmse / range / 2`, i.e. a quarter of
the claim's `RMSE / ((max(true)+max(pred)-min(true)-min(pred)) / 2)
= 1/2`: the spec's parenthesisation does not match the source's
left-associated division chain. -/
theorem C2_counterexample :
    get_column_score (fun q => q) [[0, 2]] [[1, 3]] [[true, true]]
      = Except.ok ⟨[some 0], [some 0], [some 1], [some 1], [some (1 / 8)], [some (1 / 2)]⟩
    ∧ ((1 : ℚ) / 8)
      ≠ rmseOf (fun q => q) (maskSel [0, 2] [true, true]) (maskSel [1, 3] [true, true])
        / (combinedRange (maskSel [0, 2] [true, true]) (maskSel [1, 3] [true, true]) / 2) := by
  constructor
  · simp [get_column_score, stepsMetrics, stepMetrics, sklearn_r2_score, sklearn_mse, maskSel,
      meanQ, scipy_pearsonr, listMax, listMin, qmax, qmin]
    norm_num
  · simp [rmseOf, combinedRange, maskSel, meanQ, listMax, listMin, qmax, qmin]
    norm_num

/-- Entrywise lookup commutes with an entrywise map of a 3-D array. -/
theorem entryAt_map (f : Val → Val) (a : Arr3) (i j c : ℕ) :
    entryAt (a.map (fun m => m.map (fun r => r.map f))) i j c = (entryAt a i j c).map f := by
  simp only [entryAt, List.getElem?_map]
  cases hi : a[i]? with
  | none => simp
  | some m =>
    simp only [Option.map_some', Option.some_bind, List.getElem?_map]
    cases hj : m[j]? with
    | none => simp
    | some r => simp only [Option.map_some', Option.some_bind, List.getElem?_map]

/-- Row lookup commutes with a rowwise map of a 3-D array. -/
theorem rowAt_map (g : Row → Row) (a : Arr3) (i j : ℕ) :
    rowAt (a.map (fun m => m.map g)) i j = (rowAt a i j).map g := by
  simp only [rowAt, List.getElem?_map]
  cases hi : a[i]? with
  | none => simp
  | some m => simp only [Option.map_some', Option.some_bind, List.getElem?_map]

/-- Every entry of a successfully normalized group is finite: the final
NaN-replacement step stamps `some` on every cell. -/
theorem normalize_group_ok_no_nan {sc0 : Option MinMaxScaler} {method : ScaleMethod}
    {a : Arr3} {scRes : Option MinMaxScaler} {out2 : Arr3}
    (h : normalize_group sc0 method a = Except.ok (scRes, out2)) :
    ∀ m ∈ out2, ∀ r ∈ m, ∀ v ∈ r, v ≠ none := by
  have key : ∀ x : Arr3, ∀ m ∈ nanToZeroArr x, ∀ r ∈ m, ∀ v ∈ r, v ≠ none := by
    intro x m hm r hr v hv
    obtain ⟨m0, _, rfl⟩ := List.mem_map.mp hm
    obtain ⟨r0, _, rfl⟩ := List.mem_map.mp hr
    obtain ⟨v0, _, rfl⟩ := List.mem_map.mp hv
    simp [nanToZero]
  cases method with
  | fit => simp [normalize_group] at h
  | transform =>
    cases sc0 with
    | none => simp [normalize_group] at h
    | some s =>
      simp only [normalize_group] at h
      injection h with h
      injection h with _ h
      exact h ▸ key _
  | fit_transform =>
    simp only [normalize_group] at h
    injection h with h
    injection h with _ h
    exact h ▸ key _

/-- Every group of a successful `normalize_data` output arose from a
successful `normalize_group` run. -/
theorem normalize_data_ok_group {data : List (String × Arr3)}
    {scalars : String → Option MinMaxScaler} {method : ScaleMethod}
    {sc2 : String → Option MinMaxScaler} {out : List (String × Arr3)}
    (h : normalize_data data scalars method = Except.ok (sc2, out)) :
    ∀ g ∈ out, ∃ sc0 scRes a, normalize_group sc0 method a = Except.ok (scRes, g.2) := by
  induction data generalizing scalars out with
  | nil =>
    simp only [normalize_data] at h
    injection h with h
    injection h with _ h
    subst h
    intro g hg
    simp at hg
  | cons hd tl ih =>
    simp only [normalize_data] at h
    split at h
    · simp at h
    · rename_i sc a2 e1
      split at h
      · simp at h
      · rename_i sc3 rest2 e2
        injection h with h
        injection h with hsc h
        subst h
        subst hsc
        intro g hg
        rcases List.mem_cons.mp hg with hg | hg
        · exact ⟨scalars hd.1, sc, hd.2, by rw [hg]; simpa using e1⟩
        · exact ih e2 g hg

/-- C10 (confirmed): whenever `normalize_data` returns an output, no
entry of any group tensor is NaN; per group the returned tensor is
exactly the scaled tensor with every NaN replaced by 0 via `nanToZero`
— and `nanToZero` sends NaN to exactly 0 while fixing finite values,
so a padding sentinel, a pre-existing NaN and a scaler-produced NaN
all come out as the same exact 0. -/
theorem C10_no_nan_in_normalized_output
    (data : List (String × Arr3)) (scalars : String → Option MinMaxScaler)
    (method : ScaleMethod) (sc2 : String → Option MinMaxScaler) (out : List (String × Arr3))
    (h : normalize_data data scalars method = Except.ok (sc2, out)) :
    (∀ g ∈ out, ∀ m ∈ g.2, ∀ r ∈ m, ∀ v ∈ r, v ≠ none)
    ∧ (∀ (s : MinMaxScaler) (a out2 : Arr3) (scRes : Option MinMaxScaler),
        normalize_group (some s) ScaleMethod.transform a = Except.ok (scRes, out2) →
        ∀ i j c, entryAt out2 i j c
          = (entryAt (transformArr s (a.map maskZeroRows)) i j c).map nanToZero)
    ∧ (∀ (a out2 : Arr3) (sc0 scRes : Option MinMaxScaler),
        normalize_group sc0 ScaleMethod.fit_transform a = Except.ok (scRes, out2) →
        ∀ i j c, entryAt out2 i j c
          = (entryAt (transformArr (mmFit ((a.map maskZeroRows).flatten))
              (a.map maskZeroRows)) i j c).map nanToZero)
    ∧ nanToZero none = some 0 ∧ (∀ q : ℚ, nanToZero (some q) = some q) := by
  refine ⟨?_, ?_, ?_, rfl, fun q => rfl⟩
  · intro g hg
    obtain ⟨sc0, scRes, a, hgr⟩ := normalize_data_ok_group h g hg
    exact normalize_group_ok_no_nan hgr
  · intro s a out2 scRes h2 i j c
    simp only [normalize_group] at h2
    injection h2 with h2
    injection h2 with _ h2
    rw [← h2, nanToZeroArr, entryAt_map]
  · intro a out2 sc0 scRes h2 i j c
    simp only [normalize_group] at h2
    injection h2 with h2
    injection h2 with _ h2
    rw [← h2, nanToZeroArr, entryAt_map]

/-- C10 witness: a concrete run of `normalize_data` with one group
holding a sentinel sample, a genuine NaN and ordinary values. -/
theorem C10_no_nan_in_normalized_output_witness :
    normalize_data [("g", [[[some 0], [none], [some 1], [some 3]]])] (fun _ => none)
        ScaleMethod.fit_transform
      = Except.ok (updScalars (fun _ => none) "g" (some ⟨[some 1], [some 3]⟩),
          [("g", [[[some 0], [some 0], [some 0], [some 1]]])])
    ∧ (∀ g ∈ [("g", ([[[some 0], [some 0], [some 0], [some 1]]] : Arr3))],
        ∀ m ∈ g.2, ∀ r ∈ m, ∀ v ∈ r, v ≠ none) := by
  have h : normalize_data [("g", [[[some 0], [none], [some 1], [some 3]]])] (fun _ => none)
      ScaleMethod.fit_transform
      = Except.ok (updScalars (fun _ => none) "g" (some ⟨[some 1], [some 3]⟩),
          [("g", [[[some 0], [some 0], [some 0], [some 1]]])]) := by
    simp [normalize_data, normalize_group, mmFit, nanMin, nanMax, colOf, nCols,
      maskZeroRows, maskRowZeros, sentinelRow, transformArr, nanToZeroArr, nanToZero,
      mmTransformRow, mmEntry, qmin, qmax, List.range_succ]
    norm_num
  exact ⟨h, (C10_no_nan_in_normalized_output _ _ _ _ _ h).1⟩

/-- C4 counterexample: the normalizer has no working `fit` mode — the
claim quantifies over the mode `fit`, but dispatching the scaler's
`fit` leaves a scaler object where line 141 expects an array, so
`normalize_group` fails instead of producing a normalized output whose
sentinel samples are zero. -/
theorem C4_counterexample :
    normalize_group none ScaleMethod.fit [[[some 0], [some 4]]]
      = Except.error "AttributeError: MinMaxScaler object has no attribute reshape" := by
  simp [normalize_group]

/-- The scaler transform sends NaN entries to NaN, whatever the fitted
parameters. -/
theorem mmEntry_none (lo hi : Val) : mmEntry lo hi none = none := by
  cases lo <;> cases hi <;> rfl

/-- An index-aware map that sends NaN to NaN fixes an all-NaN row. -/
theorem mapIdx_const_none (r : Row) : ∀ g : ℕ → Val → Val, (∀ i, g i none = none) →
    List.mapIdx g (r.map (fun _ => (none : Val))) = r.map (fun _ => (none : Val)) := by
  induction r with
  | nil => intro g hg; simp
  | cons x xs ih =>
    intro g hg
    simp only [List.map_cons, List.mapIdx_cons, hg 0, List.cons.injEq, true_and]
    exact ih (fun i => g (i + 1)) (fun i => hg (i + 1))

/-- The scaler transform fixes the all-NaN rows that sentinel masking
produces. -/
theorem mmTransformRow_const_none (sc : MinMaxScaler) (r : Row) :
    mmTransformRow sc (r.map (fun _ => (none : Val))) = r.map (fun _ => (none : Val)) :=
  mapIdx_const_none r _ (fun _ => mmEntry_none _ _)

/-- A sentinel sample, masked, scaled and NaN-replaced, is exactly the
all-zero sample of the same width. -/
theorem sentinel_row_maps_to_zero (sc : MinMaxScaler) (r : Row) (hs : sentinelRow r = true) :
    (mmTransformRow sc (maskRowZeros r)).map nanToZero = r.map (fun _ => (some 0 : Val)) := by
  rw [maskRowZeros, if_pos hs, mmTransformRow_const_none]
  simp [nanToZero, List.map_map, Function.comp]

/-- The ok outputs of `normalize_group` are the rowwise composite
mask-transform-replace. -/
theorem normalized_out_eq (s : MinMaxScaler) (a : Arr3) :
    nanToZeroArr (transformArr s (a.map maskZeroRows))
      = a.map (fun m => m.map (fun r => (mmTransformRow s (maskRowZeros r)).map nanToZero)) := by
  simp [nanToZeroArr, transformArr, maskZeroRows, List.map_map, Function.comp]

/-- A constant-NaN row reads NaN at every index. -/
theorem const_none_getD (r : Row) (j : ℕ) :
    (r.map (fun _ => (none : Val))).getD j none = none := by
  rw [List.getD_eq_getElem?_getD]
  simp only [List.getElem?_map]
  cases r[j]? <;> simp

/-- Column `j` of a sentinel-masked matrix holds the same finite values
as column `j` of the matrix with its sentinel rows removed. -/
theorem filterMap_col_mask (m : Mat) (j : ℕ) :
    (colOf (m.map maskRowZeros) j).filterMap id
      = (colOf (m.filter (fun r => !(sentinelRow r))) j).filterMap id := by
  induction m with
  | nil => simp [colOf]
  | cons r m ih =>
    by_cases hs : sentinelRow r
    · simp only [colOf, List.map_cons, List.filter_cons, hs, Bool.not_true, if_neg,
        Bool.false_eq_true, not_false_eq_true, List.filterMap_cons]
      rw [maskRowZeros, if_pos hs, const_none_getD]
      exact ih
    · have hs' : sentinelRow r = false := by simpa using hs
      simp only [colOf, List.map_cons, List.filter_cons, hs', Bool.not_false, if_pos,
        List.filterMap_cons]
      rw [maskRowZeros, if_neg (by simp [hs'])]
      cases r.getD j none with
      | none => exact ih
      | some v => simp only [id, colOf] at ih ⊢; rw [ih]

/-- `nanmin` over a masked column equals `nanmin` over the
sentinel-free column: sentinel samples do not enter the fitted range. -/
theorem nanMin_mask_filter (m : Mat) (j : ℕ) :
    nanMin (colOf (m.map maskRowZeros) j)
      = nanMin (colOf (m.filter (fun r => !(sentinelRow r))) j) := by
  unfold nanMin
  rw [filterMap_col_mask]

/-- `nanmax` over a masked column equals `nanmax` over the
sentinel-free column. -/
theorem nanMax_mask_filter (m : Mat) (j : ℕ) :
    nanMax (colOf (m.map maskRowZeros) j)
      = nanMax (colOf (m.filter (fun r => !(sentinelRow r))) j) := by
  unfold nanMax
  rw [filterMap_col_mask]

/-- Flattening commutes with sentinel masking. -/
theorem masked_flatten (a : Arr3) :
    (a.map maskZeroRows).flatten = a.flatten.map maskRowZeros := by
  simp only [List.map_flatten]
  rfl

/-- C4 (corrected): for the modes that produce output (`transform` and
`fit_transform`), every padding-sentinel sample — all channels exactly
zero — comes out as exactly zero again in the transformed space, and a
`fit_transform` fit excludes sentinel samples: every fitted per-column
minimum and maximum equals the NaN-aware extremum over the input with
its sentinel samples removed.  (The claim's third mode, `fit`, never
produces an output — see the counterexample.) -/
theorem C4_sentinel_preserved_and_excluded
    (a : Arr3) (sc0 : Option MinMaxScaler) (method : ScaleMethod)
    (scOut : Option MinMaxScaler) (out : Arr3)
    (h : normalize_group sc0 method a = Except.ok (scOut, out)) :
    (∀ i j r, rowAt a i j = some r → sentinelRow r = true →
        rowAt out i j = some (r.map (fun _ => (some 0 : Val))))
    ∧ (method = ScaleMethod.fit_transform →
        ∃ s, scOut = some s
          ∧ (∀ jc, jc < s.dataMin.length →
              s.dataMin.getD jc none
                = nanMin (colOf (a.flatten.filter (fun r => !(sentinelRow r))) jc))
          ∧ (∀ jc, jc < s.dataMax.length →
              s.dataMax.getD jc none
                = nanMax (colOf (a.flatten.filter (fun r => !(sentinelRow r))) jc))) := by
  have sentinelPart : ∀ s : MinMaxScaler,
      out = nanToZeroArr (transformArr s (a.map maskZeroRows)) →
      ∀ i j r, rowAt a i j = some r → sentinelRow r = true →
        rowAt out i j = some (r.map (fun _ => (some 0 : Val))) := by
    intro s hout i j r hrow hs
    rw [hout, normalized_out_eq, rowAt_map, hrow, Option.map_some',
      sentinel_row_maps_to_zero s r hs]
  cases method with
  | fit => simp [normalize_group] at h
  | transform =>
    cases sc0 with
    | none => simp [normalize_group] at h
    | some s =>
      simp only [normalize_group] at h
      injection h with h
      injection h with hsc hout
      refine ⟨sentinelPart s hout.symm, ?_⟩
      intro hm
      exact absurd hm (by simp)
  | fit_transform =>
    simp only [normalize_group] at h
    injection h with h
    injection h with hsc hout
    refine ⟨sentinelPart _ hout.symm, fun _ => ⟨mmFit ((a.map maskZeroRows).flatten),
      hsc.symm, ?_, ?_⟩⟩
    · intro jc hjc
      rw [mmFit] at hjc ⊢
      simp only [List.length_map, List.length_range] at hjc
      rw [List.getD_eq_getElem?_getD]
      simp only [List.getElem?_map, List.getElem?_range, hjc, if_pos]
      rw [Option.map_some', Option.getD_some, masked_flatten, nanMin_mask_filter]
    · intro jc hjc
      rw [mmFit] at hjc ⊢
      simp only [List.length_map, List.length_range] at hjc
      rw [List.getD_eq_getElem?_getD]
      simp only [List.getElem?_map, List.getElem?_range, hjc, if_pos]
      rw [Option.map_some', Option.getD_some, masked_flatten, nanMax_mask_filter]

/-- C4 witness: a concrete `fit_transform` run over one group in which
the first sample is a padding sentinel. -/
theorem C4_sentinel_preserved_and_excluded_witness :
    normalize_group none ScaleMethod.fit_transform
        [[[some 0, some 0], [some 1, some 3], [some 2, some 5]]]
      = Except.ok (some ⟨[some 1, some 3], [some 2, some 5]⟩,
          [[[some 0, some 0], [some 0, some 0], [some 1, some 1]]])
    ∧ rowAt [[[some 0, some 0], [some 1, some 3], [some 2, some 5]]] 0 0
        = some [some 0, some 0]
    ∧ sentinelRow [some 0, some 0] = true
    ∧ rowAt [[[some 0, some 0], [some 0, some 0], [some 1, some 1]]] 0 0
        = some [some 0, some 0] := by
  have h : normalize_group none ScaleMethod.fit_transform
      [[[some 0, some 0], [some 1, some 3], [some 2, some 5]]]
      = Except.ok (some ⟨[some 1, some 3], [some 2, some 5]⟩,
          [[[some 0, some 0], [some 0, some 0], [some 1, some 1]]]) := by
    simp [normalize_group, mmFit, nanMin, nanMax, colOf, nCols, maskZeroRows, maskRowZeros,
      sentinelRow, transformArr, nanToZeroArr, nanToZero, mmTransformRow, mmEntry, qmin, qmax,
      List.range_succ]
    norm_num
  refine ⟨h, by simp [rowAt], by simp [sentinelRow], ?_⟩
  have := (C4_sentinel_preserved_and_excluded _ _ _ _ _ h).1 0 0 [some 0, some 0]
    (by simp [rowAt]) (by simp [sentinelRow])
  simpa using this

/-- Inversion of one scoring-loop iteration. -/
theorem stepsMetrics_cons_inv {sq : ℚ → ℚ} {x : List ℚ × List ℚ × List Bool}
    {rest : List (List ℚ × List ℚ × List Bool)} {ss : List StepScore}
    (h : stepsMetrics sq (x :: rest) = Except.ok ss) :
    ∃ st ss0, stepMetrics sq x.1 x.2.1 x.2.2 = Except.ok st
      ∧ stepsMetrics sq rest = Except.ok ss0 ∧ ss = st :: ss0 := by
  simp only [stepsMetrics] at h
  cases h1 : stepMetrics sq x.1 x.2.1 x.2.2 with
  | error e => rw [h1] at h; simp at h
  | ok st =>
    rw [h1] at h
    dsimp only at h
    cases h2 : stepsMetrics sq rest with
    | error e => rw [h2] at h; simp at h
    | ok ss0 =>
      rw [h2] at h
      dsimp only at h
      injection h with h
      exact ⟨st, ss0, rfl, rfl, h.symm⟩

/-- When the scoring loop succeeds, the entry at step `i` of its output
is the `stepMetrics` of that step's data. -/
theorem stepsMetrics_ok_get {sq : ℚ → ℚ} {l : List (List ℚ × List ℚ × List Bool)}
    {ss : List StepScore} (h : stepsMetrics sq l = Except.ok ss) :
    ∀ (i : ℕ) (x : List ℚ × List ℚ × List Bool), l[i]? = some x →
      ∃ st, stepMetrics sq x.1 x.2.1 x.2.2 = Except.ok st ∧ ss[i]? = some st := by
  induction l generalizing ss with
  | nil => intro i x hx; simp at hx
  | cons hd tl ih =>
    obtain ⟨st0, ss0, e1, e2, rfl⟩ := stepsMetrics_cons_inv h
    intro i x hx
    cases i with
    | zero =>
      simp only [List.getElem?_cons_zero, Option.some_inj] at hx
      subst hx
      exact ⟨st0, e1, by simp⟩
    | succ n =>
      simp only [List.getElem?_cons_succ] at hx
      obtain ⟨st, h1, h2⟩ := ih e2 n x hx
      exact ⟨st, h1, by simpa using h2⟩

/-- C2 (corrected): for every step whose mask selects at least two
samples and whose combined range is nonzero, the reported relative
RMSE is the step's RMSE divided by the combined range
`max(true)+max(pred)-min(true)-min(pred)` and then divided by 2 —
`rmse / range / 2` by Python's left-associated division — which is a
quarter of the spec's `RMSE / (range / 2)`. -/
theorem C2_r_rmse_is_rmse_div_range_div_two (sq : ℚ → ℚ)
    (t p : List (List ℚ)) (w : List (List Bool)) (i : ℕ)
    (tI pI : List ℚ) (wI : List Bool) (s : ColumnScore)
    (hok : get_column_score sq t p w = Except.ok s)
    (hz : (t.zip (p.zip w))[i]? = some (tI, pI, wI))
    (hn : 2 ≤ (maskSel tI wI).length)
    (hr : combinedRange (maskSel tI wI) (maskSel pI wI) ≠ 0) :
    s.r_rmse[i]? = some (some (rmseOf sq (maskSel tI wI) (maskSel pI wI)
      / combinedRange (maskSel tI wI) (maskSel pI wI) / 2)) := by
  simp only [get_column_score] at hok
  cases e1 : stepsMetrics sq (t.zip (p.zip w)) with
  | error e => rw [e1] at hok; simp at hok
  | ok steps =>
    rw [e1] at hok
    dsimp only at hok
    cases e2 : sklearn_r2_score (((t.zip w).map (fun q => maskSel q.1 q.2)).flatten)
        (((p.zip w).map (fun q => maskSel q.1 q.2)).flatten) with
    | error e => rw [e2] at hok; simp at hok
    | ok r2allv =>
      rw [e2] at hok
      dsimp only at hok
      injection hok with hok
      subst hok
      obtain ⟨st, hst, hget⟩ := stepsMetrics_ok_get e1 i (tI, pI, wI) hz
      simp only [List.getElem?_map, hget, Option.map_some']
      simp only [stepMetrics] at hst
      cases er2 : sklearn_r2_score (maskSel tI wI) (maskSel pI wI) with
      | error e => rw [er2] at hst; simp at hst
      | ok r2v =>
        rw [er2] at hst
        dsimp only at hst
        cases emse : sklearn_mse (maskSel tI wI) (maskSel pI wI) with
        | error e => rw [emse] at hst; simp at hst
        | ok msev =>
          rw [emse] at hst
          dsimp only at hst
          injection hst with hst
          subst hst
          simp only [combinedRange] at hr
          simp only [if_neg hr]
          have hmse : msev = meanQ (((maskSel tI wI).zip (maskSel pI wI)).map
              (fun q => (q.1 - q.2) ^ 2)) := by
            simp only [sklearn_mse] at emse
            by_cases hlen : (maskSel tI wI).length = 0
            · rw [if_pos hlen] at emse; simp at emse
            · rw [if_neg hlen] at emse
              injection emse with emse
              exact emse.symm
          simp [rmseOf, combinedRange, hmse, meanQ]

/-- C2 witness: the concrete step `true = [0, 2]`, `pred = [1, 3]`,
all-true mask; both hypotheses hold and the reported relative RMSE is
`rmse / range / 2 = 1/8`. -/
theorem C2_r_rmse_is_rmse_div_range_div_two_witness :
    2 ≤ (maskSel [0, 2] [true, true]).length
    ∧ combinedRange (maskSel [0, 2] [true, true]) (maskSel [1, 3] [true, true]) ≠ 0
    ∧ (⟨[some 0], [some 0], [some 1], [some 1], [some (1 / 8)],
        [some (1 / 2)]⟩ : ColumnScore).r_rmse[0]?
      = some (some (rmseOf (fun q => q) (maskSel [0, 2] [true, true])
          (maskSel [1, 3] [true, true])
        / combinedRange (maskSel [0, 2] [true, true]) (maskSel [1, 3] [true, true]) / 2)) := by
  have hok : get_column_score (fun q => q) [[0, 2]] [[1, 3]] [[true, true]]
      = Except.ok ⟨[some 0], [some 0], [some 1], [some 1], [some (1 / 8)], [some (1 / 2)]⟩ := by
    simp [get_column_score, stepsMetrics, stepMetrics, sklearn_r2_score, sklearn_mse, maskSel,
      meanQ, scipy_pearsonr, listMax, listMin, qmax, qmin]
    norm_num
  refine ⟨by simp [maskSel], ?_, ?_⟩
  · simp [combinedRange, maskSel, listMax, listMin, qmax, qmin]
    norm_num
  · exact C2_r_rmse_is_rmse_div_range_div_two (fun q => q) [[0, 2]] [[1, 3]] [[true, true]] 0
      [0, 2] [1, 3] [true, true] _ hok (by simp)
      (by simp [maskSel])
      (by simp [combinedRange, maskSel, listMax, listMin, qmax, qmin]; norm_num)

/-- Appending fresh cells does not change existing heap cells. -/
theorem hget_append (h t : Heap) (r : ℕ) (hr : r < h.length) : hget (h ++ t) r = hget h r := by
  simp only [hget, List.getD_eq_getElem?_getD]
  rw [List.getElem?_append, if_pos hr]

/-- Writing one cell leaves every other cell unchanged. -/
theorem hget_set_ne (h : Heap) (i : ℕ) (a : Arr3) (r : ℕ) (hir : i ≠ r) :
    hget (hset h i a) r = hget h r := by
  simp only [hget, hset, List.getD_eq_getElem?_getD]
  rw [List.getElem?_set_ne hir]

/-- Field extraction only allocates: it never shrinks the heap and
leaves every pre-existing cell untouched (`.copy()` on line 42). -/
theorem extract_heap_frame (dataFields : List String)
    (fieldsDict : List (String × List String)) (r : ℕ) (h : Heap) :
    h.length ≤ ((extract_heap dataFields fieldsDict r h).1).length
    ∧ ∀ s, s < h.length → hget ((extract_heap dataFields fieldsDict r h).1) s = hget h s := by
  induction fieldsDict generalizing h with
  | nil => exact ⟨le_refl _, fun s _ => rfl⟩
  | cons g rest ih =>
    simp only [extract_heap, halloc]
    obtain ⟨ih1, ih2⟩ := ih (h ++ [sliceCols dataFields g.2 (hget h r)])
    constructor
    · calc h.length ≤ (h ++ [sliceCols dataFields g.2 (hget h r)]).length := by simp
        _ ≤ _ := ih1
    · intro s hs
      rw [ih2 s (by simp; omega), hget_append _ _ _ hs]

/-- Per-group normalization only writes to cells it allocated itself:
the copy of line 135 receives the masked assignment, the scaler output
of line 140 receives the NaN replacement, and every pre-existing cell
is untouched. -/
theorem normalize_group_heap_frame (sc : Option MinMaxScaler) (method : ScaleMethod)
    (r : ℕ) (h : Heap) :
    h.length ≤ ((normalize_group_heap sc method r h).1).length
    ∧ ∀ s, s < h.length → hget ((normalize_group_heap sc method r h).1) s = hget h s := by
  have base : ∀ (x y : Arr3) (s : ℕ), s < h.length →
      hget (hset (h ++ [x]) h.length y) s = hget h s := by
    intro x y s hs
    rw [hget_set_ne _ _ _ _ (by omega), hget_append _ _ _ hs]
  have baseLen : ∀ (x y : Arr3), h.length ≤ (hset (h ++ [x]) h.length y).length := by
    intro x y; simp [hset]
  have step2 : ∀ (x y z w : Arr3) (s : ℕ), s < h.length →
      hget (hset (hset (h ++ [x]) h.length y ++ [z])
        (hset (h ++ [x]) h.length y).length w) s = hget h s := by
    intro x y z w s hs
    rw [hget_set_ne _ _ _ _ (by simp [hset]; omega),
      hget_append _ _ _ (by simp [hset]; omega), base x y s hs]
  have step2Len : ∀ (x y z w : Arr3),
      h.length ≤ (hset (hset (h ++ [x]) h.length y ++ [z])
        (hset (h ++ [x]) h.length y).length w).length := by
    intro x y z w; simp [hset]
  cases method with
  | fit =>
    simp only [normalize_group_heap, halloc]
    exact ⟨baseLen _ _, fun s hs => base _ _ s hs⟩
  | transform =>
    cases sc with
    | none =>
      simp only [normalize_group_heap, halloc]
      exact ⟨baseLen _ _, fun s hs => base _ _ s hs⟩
    | some s0 =>
      simp only [normalize_group_heap, halloc]
      exact ⟨step2Len _ _ _ _, fun s hs => step2 _ _ _ _ s hs⟩
  | fit_transform =>
    simp only [normalize_group_heap, halloc]
    exact ⟨step2Len _ _ _ _, fun s hs => step2 _ _ _ _ s hs⟩

/-- One pipeline operation never shrinks the heap and never changes a
pre-existing cell. -/
theorem runOp_frame (h : Heap) (op : PipeOp) :
    h.length ≤ (runOp h op).length
    ∧ ∀ s, s < h.length → hget (runOp h op) s = hget h s := by
  cases op with
  | extract df fd r => exact extract_heap_frame df fd r h
  | normalize sc m r => exact normalize_group_heap_frame sc m r h

/-- C9 (confirmed): outside calibration no pipeline operation mutates
the stored subject arrays — after any sequence of field extractions
(the preprocess, evaluate and score paths all read through them) and
group normalizations, every original heap cell, in particular every
stored subject array, holds exactly its original value.  The result
rests on the source's copy discipline: line 42's `.copy()` and line
135's `input_data.copy()` direct every in-place write to fresh
cells. -/
theorem C9_store_arrays_unchanged (h : Heap) (ops : List PipeOp) (r : ℕ)
    (hr : r < h.length) : hget (runOps h ops) r = hget h r := by
  induction ops generalizing h with
  | nil => rfl
  | cons op rest ih =>
    obtain ⟨hlen, hsame⟩ := runOp_frame h op
    calc hget (runOps (runOp h op) rest) r = hget (runOp h op) r := ih _ (lt_of_lt_of_le hr hlen)
      _ = hget h r := hsame r hr

/-- C9 witness: a two-operation pipeline (normalize then extract) over
a one-subject heap leaves the stored array unchanged. -/
theorem C9_store_arrays_unchanged_witness :
    0 < ([[[[some 1], [some 2]]]] : Heap).length
    ∧ hget (runOps [[[[some 1], [some 2]]]]
        [PipeOp.normalize none ScaleMethod.fit_transform 0,
         PipeOp.extract ["f"] [("x", ["f"])] 0]) 0
      = hget [[[[some 1], [some 2]]]] 0 :=
  ⟨by simp, C9_store_arrays_unchanged _ _ 0 (by simp)⟩

/-- With at least one subject, the fold count is `(n-1)/k + 1`. -/
theorem folderNum_eq (n k : ℕ) (hk : 1 ≤ k) (hn : 1 ≤ n) :
    folderNum n k = (n - 1) / k + 1 := by
  have h1 : n + k - 1 = (n - 1) + k := by omega
  rw [folderNum, h1, Nat.add_div_right _ (by omega)]

/-- Peeling one fold off the count. -/
theorem folderNum_succ (k : ℕ) (hk : 1 ≤ k) (n : ℕ) (hn : 1 ≤ n) :
    folderNum n k = folderNum (n - k) k + 1 := by
  rcases le_or_lt n k with hle | hlt
  · have h0 : n - k = 0 := by omega
    rw [h0, folderNum_eq n k hk hn, folderNum,
      Nat.div_eq_of_lt (show n - 1 < k by omega),
      Nat.div_eq_of_lt (show 0 + k - 1 < k by omega)]
  · have hn2 : 1 ≤ n - k := by omega
    rw [folderNum_eq n k hk hn, folderNum_eq (n - k) k hk hn2,
      show n - 1 = (n - k - 1) + k by omega, Nat.add_div_right _ (by omega)]

/-- Fold 0 is the leading slice. -/
theorem testFold_zero (subs : List String) (k : ℕ) : testFold subs k 0 = subs.take k := by
  simp [testFold]

/-- Fold `i+1` of a list is fold `i` of the list without its first
`k` elements. -/
theorem testFold_succ (subs : List String) (k i : ℕ) :
    testFold subs k (i + 1) = testFold (subs.drop k) k i := by
  unfold testFold
  rw [List.drop_drop]
  congr 2
  ring

/-- The folds are contiguous slices whose concatenation, in order, is
the original subject list. -/
theorem testFold_flatten (k : ℕ) (hk : 1 ≤ k) (subs : List String) :
    ((List.range (folderNum subs.length k)).map (testFold subs k)).flatten = subs := by
  suffices h : ∀ n (subs : List String), subs.length = n →
      ((List.range (folderNum subs.length k)).map (testFold subs k)).flatten = subs from
    h subs.length subs rfl
  intro n
  induction n using Nat.strong_induction_on with
  | _ n ih =>
    intro subs hn
    cases subs with
    | nil =>
      simp only [List.length_nil] at hn
      subst hn
      simp [folderNum, Nat.div_eq_of_lt (show k - 1 < k by omega)]
    | cons a l =>
      subst hn
      rw [folderNum_succ k hk _ (by simp), List.range_succ_eq_map, List.map_cons,
        List.flatten_cons, List.map_map]
      have hcomp : testFold (a :: l) k ∘ Nat.succ = testFold ((a :: l).drop k) k := by
        funext i
        exact testFold_succ (a :: l) k i
      rw [hcomp, testFold_zero,
        show (a :: l).length - k = ((a :: l).drop k).length from (List.length_drop _ _).symm,
        ih ((a :: l).drop k).length (by simp; omega) _ rfl,
        List.take_append_drop]

/-- Length of fold `i`. -/
theorem testFold_length (subs : List String) (k i : ℕ) :
    (testFold subs k i).length = min k (subs.length - k * i) := by
  simp [testFold]

/-- C5 (confirmed): for a nonempty duplicate-free subject list and test
fold size `k ≥ 1`, cross-validation runs exactly `⌈n/k⌉` folds
(characterised by `n ≤ k·fn` and `k·(fn-1) < n`); the test folds are
contiguous slices in original order whose in-order concatenation is
the whole list (hence pairwise coverage), every fold is nonempty with
at most `k` subjects and every fold but the last has exactly `k`;
distinct folds are disjoint (each subject is in exactly one test
fold); and each fold's train set `np.setdiff1d(sub_ids, test)` holds
exactly the subjects outside the fold. -/
theorem C5_fold_partition (subs : List String) (k : ℕ) (hk : 1 ≤ k) (hne : subs ≠ [])
    (hnd : subs.Nodup) :
    (subs.length ≤ k * folderNum subs.length k
      ∧ k * (folderNum subs.length k - 1) < subs.length)
    ∧ ((List.range (folderNum subs.length k)).map (testFold subs k)).flatten = subs
    ∧ (∀ i, i < folderNum subs.length k →
        testFold subs k i ≠ [] ∧ (testFold subs k i).length ≤ k)
    ∧ (∀ i, i + 1 < folderNum subs.length k → (testFold subs k i).length = k)
    ∧ (∀ i j, i < j → j < folderNum subs.length k →
        ∀ x, x ∈ testFold subs k i → x ∉ testFold subs k j)
    ∧ (∀ i x, x ∈ np_setdiff1d subs (testFold subs k i)
        ↔ x ∈ subs ∧ x ∉ testFold subs k i) := by
  have hn : 1 ≤ subs.length := List.length_pos.mpr hne
  have hfe := folderNum_eq subs.length k hk hn
  have hcount : subs.length ≤ k * folderNum subs.length k
      ∧ k * (folderNum subs.length k - 1) < subs.length := by
    constructor
    · have key : k * ((subs.length - 1) / k) + (subs.length - 1) % k = subs.length - 1 :=
        Nat.div_add_mod _ _
      have hmlt : (subs.length - 1) % k < k := Nat.mod_lt _ (by omega)
      rw [hfe, Nat.mul_add, Nat.mul_one]
      omega
    · rw [hfe]
      simp only [Nat.add_sub_cancel]
      calc k * ((subs.length - 1) / k) = (subs.length - 1) / k * k := by ring
        _ ≤ subs.length - 1 := Nat.div_mul_le_self _ _
        _ < subs.length := by omega
  have hsmall : ∀ i, i < folderNum subs.length k → k * i < subs.length := by
    intro i hi
    have h1 : k * i ≤ k * (folderNum subs.length k - 1) :=
      Nat.mul_le_mul_left k (by omega)
    omega
  refine ⟨hcount, testFold_flatten k hk subs, ?_, ?_, ?_, ?_⟩
  · intro i hi
    have h1 := hsmall i hi
    constructor
    · rw [← List.length_pos, testFold_length]
      omega
    · rw [testFold_length]
      omega
  · intro i hi
    have h1 : k * (i + 1) ≤ k * (folderNum subs.length k - 1) :=
      Nat.mul_le_mul_left k (by omega)
    have h2 : k * (i + 1) = k * i + k := by ring
    rw [testFold_length]
    omega
  · have hflat := testFold_flatten k hk subs
    have hnd2 : (((List.range (folderNum subs.length k)).map (testFold subs k)).flatten).Nodup := by
      rw [hflat]
      exact hnd
    rw [List.nodup_flatten] at hnd2
    obtain ⟨-, hpair⟩ := hnd2
    rw [List.pairwise_map] at hpair
    intro i j hij hj x hxi
    have hi : i < folderNum subs.length k := lt_trans hij hj
    have hd := List.pairwise_iff_get.mp hpair
      ⟨i, by simpa using hi⟩ ⟨j, by simpa using hj⟩ (by simpa using hij)
    rw [List.get_range, List.get_range] at hd
    exact fun hxj => hd hxi hxj
  · intro i x
    simp [np_setdiff1d, List.mem_insertionSort, List.mem_dedup, List.mem_filter]

/-- C5 witness: three subjects, fold size two — the hypotheses hold
concretely and the folds `["a","b"]`, `["c"]` concatenate back to the
subject list. -/
theorem C5_fold_partition_witness :
    (1 ≤ 2 ∧ (["a", "b", "c"] : List String) ≠ [] ∧ (["a", "b", "c"] : List String).Nodup)
    ∧ ((List.range (folderNum (["a", "b", "c"] : List String).length 2)).map
        (testFold ["a", "b", "c"] 2)).flatten = ["a", "b", "c"] :=
  ⟨⟨by decide, by decide, by decide⟩,
    (C5_fold_partition ["a", "b", "c"] 2 (by decide) (by decide) (by decide)).2.1⟩

/-- The x/y training tensors a successful `preprocess_and_train` hands
to `train_model` are the raw extraction of the shuffled concatenation
of the training subjects' arrays — nothing else enters them. -/
theorem preprocess_and_train_args_train_eq
    (shuf : Arr3 → Arr3) (df : List String) (xf yf wf : List (String × List String))
    (store : Store) (scalars : String → Option MinMaxScaler)
    (tr va : List String) (sc : String → Option MinMaxScaler) (a : TrainArgs)
    (h : preprocess_and_train_args shuf df xf yf wf store scalars tr va = Except.ok (sc, a)) :
    a.x_train = get_raw_data_dict df (shuf ((tr.map (storeGet store)).flatten)) xf
    ∧ a.y_train = get_raw_data_dict df (shuf ((tr.map (storeGet store)).flatten)) yf := by
  simp only [preprocess_and_train_args, preprocess_train_data] at h
  cases e1 : normalize_data (get_raw_data_dict df (shuf ((tr.map (storeGet store)).flatten)) xf)
      scalars ScaleMethod.fit_transform with
  | error e => rw [e1] at h; simp at h
  | ok p1 =>
    obtain ⟨sc2, scaled⟩ := p1
    rw [e1] at h
    dsimp only at h
    by_cases hva : va.isEmpty = true
    · rw [if_pos hva] at h
      injection h with h
      injection h with hsc ha
      rw [← ha]
      exact ⟨rfl, rfl⟩
    · rw [if_neg hva] at h
      simp only [preprocess_validation_test_data] at h
      cases e2 : normalize_data
          (get_raw_data_dict df ((va.map (storeGet store)).flatten) xf) sc2
          ScaleMethod.transform with
      | error e => rw [e2] at h; simp at h
      | ok p2 =>
        rw [e2] at h
        dsimp only at h
        injection h with h
        injection h with hsc ha
        rw [← ha]
        exact ⟨rfl, rfl⟩

/-- C3 (corrected, the part that holds): the x/y training tensors of a
cross-validation fold depend only on the non-held-out subjects — two
stores that agree on every training subject produce identical
`x_train`, `y_train` arguments to `train_model`.  (The full claim
fails: the fold also hands the held-out subjects' data to
`train_model` as the validation set — see the counterexample.) -/
theorem C3_train_tensors_no_leakage
    (shuf : Arr3 → Arr3) (df : List String) (xf yf wf : List (String × List String))
    (s1 s2 : Store) (scalars : String → Option MinMaxScaler) (subs : List String) (k i : ℕ)
    (sc1 sc2 : String → Option MinMaxScaler) (a1 a2 : TrainArgs)
    (hagree : ∀ id ∈ np_setdiff1d subs (testFold subs k i), storeGet s1 id = storeGet s2 id)
    (h1 : cross_validation_fold_args shuf df xf yf wf s1 scalars subs k i = Except.ok (sc1, a1))
    (h2 : cross_validation_fold_args shuf df xf yf wf s2 scalars subs k i = Except.ok (sc2, a2)) :
    a1.x_train = a2.x_train ∧ a1.y_train = a2.y_train := by
  simp only [cross_validation_fold_args] at h1 h2
  obtain ⟨e1x, e1y⟩ := preprocess_and_train_args_train_eq _ _ _ _ _ _ _ _ _ _ _ h1
  obtain ⟨e2x, e2y⟩ := preprocess_and_train_args_train_eq _ _ _ _ _ _ _ _ _ _ _ h2
  have hm : (np_setdiff1d subs (testFold subs k i)).map (storeGet s1)
      = (np_setdiff1d subs (testFold subs k i)).map (storeGet s2) :=
    List.map_congr_left hagree
  rw [e1x, e2x, e1y, e2y, hm]
  exact ⟨rfl, rfl⟩

/-- C3 counterexample: in `cross_validation`, fold 0 over subjects
`["a", "b"]` holds out `"a"`, yet the arguments handed to
`train_model` include a validation set extracted from `"a"`'s data —
no caller supplied one — so two stores that differ only in the
held-out subject's array values hand `train_model` different
arguments, and the trained model cannot be claimed identical. -/
theorem C3_counterexample :
    (cvArgs (cross_validation_fold_args id ["f"] [("x", ["f"])] [("y", ["f"])] []
        [("a", [[[some 1]]]), ("b", [[[some 1], [some 2]]])] (fun _ => none) ["a", "b"] 1 0)).map
        (fun a => a.x_validation)
      = some (some [("x", [[[some 1]]])])
    ∧ (cvArgs (cross_validation_fold_args id ["f"] [("x", ["f"])] [("y", ["f"])] []
        [("a", [[[some 3]]]), ("b", [[[some 1], [some 2]]])] (fun _ => none) ["a", "b"] 1 0)).map
        (fun a => a.x_validation)
      = some (some [("x", [[[some 3]]])])
    ∧ storeGet [("a", [[[some 1]]]), ("b", [[[some 1], [some 2]]])] "b"
        = storeGet [("a", [[[some 3]]]), ("b", [[[some 1], [some 2]]])] "b"
    ∧ testFold ["a", "b"] 1 0 = ["a"]
    ∧ storeGet [("a", [[[some 1]]]), ("b", [[[some 1], [some 2]]])] "a" = [[[some 1]]]
    ∧ (some (some [("x", ([[[some 1]]] : Arr3))]) : Option (Option (List (String × Arr3))))
        ≠ some (some [("x", [[[some 3]]])]) := by
  refine ⟨?_, ?_, by simp [storeGet], by simp [testFold], by simp [storeGet], by simp⟩ <;>
  · simp [cvArgs, cross_validation_fold_args, preprocess_and_train_args,
      preprocess_train_data, preprocess_validation_test_data, np_setdiff1d, testFold,
      storeGet, get_raw_data_dict, normalize_data, normalize_group, updScalars, mmFit,
      nanMin, nanMax, colOf, nCols, maskZeroRows, maskRowZeros, sentinelRow, transformArr,
      nanToZeroArr, nanToZero, mmTransformRow, mmEntry, qmin, qmax, List.range_succ,
      List.find?, List.dedup]

/-- C3 witness: the two concrete stores above agree on the lone
training subject `"b"`, and the theorem yields identical `x_train`
tensors for both fold runs. -/
theorem C3_train_tensors_no_leakage_witness :
    (∀ id ∈ np_setdiff1d ["a", "b"] (testFold ["a", "b"] 1 0),
        storeGet [("a", [[[some 1]]]), ("b", [[[some 1], [some 2]]])] id
          = storeGet [("a", [[[some 3]]]), ("b", [[[some 1], [some 2]]])] id)
    ∧ (cvArgs (cross_validation_fold_args id ["f"] [("x", ["f"])] [("y", ["f"])] []
        [("a", [[[some 1]]]), ("b", [[[some 1], [some 2]]])] (fun _ => none) ["a", "b"] 1 0)).map
        (fun a => a.x_train)
      = (cvArgs (cross_validation_fold_args id ["f"] [("x", ["f"])] [("y", ["f"])] []
        [("a", [[[some 3]]]), ("b", [[[some 1], [some 2]]])] (fun _ => none) ["a", "b"] 1 0)).map
        (fun a => a.x_train) := by
  have hagree : ∀ id ∈ np_setdiff1d ["a", "b"] (testFold ["a", "b"] 1 0),
      storeGet [("a", [[[some 1]]]), ("b", [[[some 1], [some 2]]])] id
        = storeGet [("a", [[[some 3]]]), ("b", [[[some 1], [some 2]]])] id := by
    intro id hid
    simp [np_setdiff1d, testFold, List.dedup] at hid
    subst hid
    simp [storeGet]
  have hc1 : (cvArgs (cross_validation_fold_args id ["f"] [("x", ["f"])] [("y", ["f"])] []
      [("a", [[[some 1]]]), ("b", [[[some 1], [some 2]]])] (fun _ => none)
      ["a", "b"] 1 0)).isSome = true := by
    simp [cvArgs, cross_validation_fold_args, preprocess_and_train_args,
      preprocess_train_data, preprocess_validation_test_data, np_setdiff1d, testFold,
      storeGet, get_raw_data_dict, normalize_data, normalize_group, updScalars, mmFit,
      nanMin, nanMax, colOf, nCols, maskZeroRows, maskRowZeros, sentinelRow, transformArr,
      nanToZeroArr, nanToZero, mmTransformRow, mmEntry, qmin, qmax, List.range_succ,
      List.find?, List.dedup]
  have hc2 : (cvArgs (cross_validation_fold_args id ["f"] [("x", ["f"])] [("y", ["f"])] []
      [("a", [[[some 3]]]), ("b", [[[some 1], [some 2]]])] (fun _ => none)
      ["a", "b"] 1 0)).isSome = true := by
    simp [cvArgs, cross_validation_fold_args, preprocess_and_train_args,
      preprocess_train_data, preprocess_validation_test_data, np_setdiff1d, testFold,
      storeGet, get_raw_data_dict, normalize_data, normalize_group, updScalars, mmFit,
      nanMin, nanMax, colOf, nCols, maskZeroRows, maskRowZeros, sentinelRow, transformArr,
      nanToZeroArr, nanToZero, mmTransformRow, mmEntry, qmin, qmax, List.range_succ,
      List.find?, List.dedup]
  refine ⟨hagree, ?_⟩
  cases e1 : cross_validation_fold_args id ["f"] [("x", ["f"])] [("y", ["f"])] []
      [("a", [[[some 1]]]), ("b", [[[some 1], [some 2]]])] (fun _ => none) ["a", "b"] 1 0 with
  | error e => rw [e1] at hc1; simp [cvArgs] at hc1
  | ok r1 =>
    cases e2 : cross_validation_fold_args id ["f"] [("x", ["f"])] [("y", ["f"])] []
        [("a", [[[some 3]]]), ("b", [[[some 1], [some 2]]])] (fun _ => none) ["a", "b"] 1 0 with
    | error e => rw [e2] at hc2; simp [cvArgs] at hc2
    | ok r2 =>
      obtain ⟨scr1, ar1⟩ := r1
      obtain ⟨scr2, ar2⟩ := r2
      have hx := C3_train_tensors_no_leakage id ["f"] [("x", ["f"])] [("y", ["f"])] []
        [("a", [[[some 1]]]), ("b", [[[some 1], [some 2]]])]
        [("a", [[[some 3]]]), ("b", [[[some 1], [some 2]]])] (fun _ => none) ["a", "b"] 1 0
        scr1 scr2 ar1 ar2 hagree e1 e2
      simp [cvArgs, hx.1]

/-- `np.mean` of a nonempty NaN-free array is its sum over its
length. -/
theorem npMeanV_finite (l : List Val) (hne : l ≠ []) (hf : allFinite l) :
    npMeanV l = some ((l.filterMap id).sum / l.length) := by
  rw [npMeanV, if_neg (by simpa using hne), if_neg hf]

/-- `np.concatenate` succeeds on a nonempty list of arrays. -/
theorem npConcatV_ok (ls : List (List Val)) (h : ls ≠ []) :
    npConcatV ls = Except.ok ls.flatten := by
  rw [npConcatV, if_neg (by simpa using h)]

/-- C6 (confirmed): after all folds, each reported mean metric for an
(output, field) pair is the arithmetic mean, rounded to 3 decimals, of
the concatenation of all matching records' per-step values — all
subjects, all folds pooled before averaging.  The final conjunct
separates this from the rejected average-of-averages reading on an
asymmetric concrete case. -/
theorem C6_mean_is_concat_then_average (results : List FoldResult) (o f : String)
    (hne : results.filter (matchesOF o f) ≠ [])
    (h1 : ((results.filter (matchesOF o f)).map (fun r => r.r2)).flatten ≠ [])
    (h1f : allFinite ((results.filter (matchesOF o f)).map (fun r => r.r2)).flatten)
    (h2 : ((results.filter (matchesOF o f)).map (fun r => r.rmse)).flatten ≠ [])
    (h2f : allFinite ((results.filter (matchesOF o f)).map (fun r => r.rmse)).flatten)
    (h3 : ((results.filter (matchesOF o f)).map (fun r => r.mae)).flatten ≠ [])
    (h3f : allFinite ((results.filter (matchesOF o f)).map (fun r => r.mae)).flatten)
    (h4 : ((results.filter (matchesOF o f)).map (fun r => r.r_rmse)).flatten ≠ [])
    (h4f : allFinite ((results.filter (matchesOF o f)).map (fun r => r.r_rmse)).flatten)
    (h5 : ((results.filter (matchesOF o f)).map (fun r => r.cor_value)).flatten ≠ [])
    (h5f : allFinite ((results.filter (matchesOF o f)).map (fun r => r.cor_value)).flatten) :
    mean_results_entry results o f
      = Except.ok ⟨o, f,
          some (npRound3 (concatThenMean ((results.filter (matchesOF o f)).map (fun r => r.r2)))),
          some (npRound3 (concatThenMean
            ((results.filter (matchesOF o f)).map (fun r => r.rmse)))),
          some (npRound3 (concatThenMean
            ((results.filter (matchesOF o f)).map (fun r => r.mae)))),
          some (npRound3 (concatThenMean
            ((results.filter (matchesOF o f)).map (fun r => r.r_rmse)))),
          some (npRound3 (concatThenMean
            ((results.filter (matchesOF o f)).map (fun r => r.cor_value))))⟩
    ∧ npRound3 (concatThenMean [[some 0, some 0, some 0], [some 3]])
      ≠ (round3V (meanOfMeans [[some 0, some 0, some 0], [some 3]])).getD 0 := by
  constructor
  · have hm : ∀ (sel : FoldResult → List Val),
        ((results.filter (matchesOF o f)).map sel) ≠ [] := by
      intro sel hc
      rw [List.map_eq_nil_iff] at hc
      exact hne hc
    simp only [mean_results_entry, npConcatV_ok _ (hm _), bind, Except.bind, concatThenMean]
    rw [npMeanV_finite _ h1 h1f, npMeanV_finite _ h2 h2f, npMeanV_finite _ h3 h3f,
      npMeanV_finite _ h4 h4f, npMeanV_finite _ h5 h5f]
    rfl
  · simp [concatThenMean, meanOfMeans, npMeanV, round3V, npRound3]
    norm_num

/-- C6 witness: three records, two matching `("o","f")`, with per-step
arrays of different lengths; the aggregate is the pooled mean. -/
theorem C6_mean_is_concat_then_average_witness :
    ([⟨"o", "f", [some 1, some 2], [some 1], [some 1], [some 1], [some 1]⟩,
      ⟨"o", "g", [some 9], [some 9], [some 9], [some 9], [some 9]⟩,
      ⟨"o", "f", [some 4], [some 2], [some 2], [some 2], [some 2]⟩] :
        List FoldResult).filter (matchesOF "o" "f") ≠ []
    ∧ mean_results_entry
        [⟨"o", "f", [some 1, some 2], [some 1], [some 1], [some 1], [some 1]⟩,
         ⟨"o", "g", [some 9], [some 9], [some 9], [some 9], [some 9]⟩,
         ⟨"o", "f", [some 4], [some 2], [some 2], [some 2], [some 2]⟩] "o" "f"
      = Except.ok ⟨"o", "f",
          some (npRound3 (concatThenMean
            ((([⟨"o", "f", [some 1, some 2], [some 1], [some 1], [some 1], [some 1]⟩,
              ⟨"o", "g", [some 9], [some 9], [some 9], [some 9], [some 9]⟩,
              ⟨"o", "f", [some 4], [some 2], [some 2], [some 2], [some 2]⟩] :
                List FoldResult).filter (matchesOF "o" "f")).map (fun r => r.r2)))),
          some (npRound3 (concatThenMean
            ((([⟨"o", "f", [some 1, some 2], [some 1], [some 1], [some 1], [some 1]⟩,
              ⟨"o", "g", [some 9], [some 9], [some 9], [some 9], [some 9]⟩,
              ⟨"o", "f", [some 4], [some 2], [some 2], [some 2], [some 2]⟩] :
                List FoldResult).filter (matchesOF "o" "f")).map (fun r => r.rmse)))),
          some (npRound3 (concatThenMean
            ((([⟨"o", "f", [some 1, some 2], [some 1], [some 1], [some 1], [some 1]⟩,
              ⟨"o", "g", [some 9], [some 9], [some 9], [some 9], [some 9]⟩,
              ⟨"o", "f", [some 4], [some 2], [some 2], [some 2], [some 2]⟩] :
                List FoldResult).filter (matchesOF "o" "f")).map (fun r => r.mae)))),
          some (npRound3 (concatThenMean
            ((([⟨"o", "f", [some 1, some 2], [some 1], [some 1], [some 1], [some 1]⟩,
              ⟨"o", "g", [some 9], [some 9], [some 9], [some 9], [some 9]⟩,
              ⟨"o", "f", [some 4], [some 2], [some 2], [some 2], [some 2]⟩] :
                List FoldResult).filter (matchesOF "o" "f")).map (fun r => r.r_rmse)))),
          some (npRound3 (concatThenMean
            ((([⟨"o", "f", [some 1, some 2], [some 1], [some 1], [some 1], [some 1]⟩,
              ⟨"o", "g", [some 9], [some 9], [some 9], [some 9], [some 9]⟩,
              ⟨"o", "f", [some 4], [some 2], [some 2], [some 2], [some 2]⟩] :
                List FoldResult).filter (matchesOF "o" "f")).map (fun r => r.cor_value))))⟩ :=
  ⟨by decide,
    (C6_mean_is_concat_then_average
      [⟨"o", "f", [some 1, some 2], [some 1], [some 1], [some 1], [some 1]⟩,
       ⟨"o", "g", [some 9], [some 9], [some 9], [some 9], [some 9]⟩,
       ⟨"o", "f", [some 4], [some 2], [some 2], [some 2], [some 2]⟩] "o" "f"
      (by decide) (by decide) (by decide) (by decide) (by decide) (by decide) (by decide)
      (by decide) (by decide) (by decide) (by decide)).1⟩

end KAM
